import Mathlib

/-!
Verification development for the `valor` fleet SSH command runner.

The Go sources are shallowly embedded below. Pure computations become Lean
functions; calls into the filesystem, the terminal and the SSH library are
abstracted as explicit oracle parameters (`KeyEnv.readFile`,
`KeyEnv.parseKey`, reachability booleans, entered password strings), so that
every definition stays executable. Go `nil` interface/error values are
embedded as `Option.none`.
-/

namespace Valor

/-- `ServerList` from the dispatcher source: `type ServerList []string`. -/
abbrev ServerList := List String

/-- `NewServerList` from the dispatcher source:
`return strings.Split(arg, ","), nil`. Go's `strings.Split` with the
single-character separator `","` splits around every comma keeping empty
fields, and returns `[""]` on empty input — exactly `List.splitOn ','` over
the string's characters. The error result is always `nil`, embedded as
`none`. -/
def NewServerList (arg : String) : ServerList × Option String :=
  ((arg.toList.splitOn ',').map (fun cs => String.mk cs), none)

/-- The guard of the `usage(flagSet, 3, ...)` branch in `main`:
`err != nil` after `NewServerList`. -/
def parseFailBranch (arg : String) : Bool :=
  ((NewServerList arg).2).isSome

/-- Worker-count computation from `main` (main.go lines 101-105):
`if procsFlag == -1 || len(servers) < procsFlag { Routines(len(servers)) }
else { Routines(procsFlag) }`. Go `int` is embedded as `Int`. -/
def routines (procsFlag : Int) (numServers : Nat) : Int :=
  if procsFlag = -1 ∨ (numServers : Int) < procsFlag then (numServers : Int)
  else procsFlag

/-- Thread clamp at the top of `execute` (dispatcher source lines 67-70):
`threads := Config.NumProcs; if len(Config.ServerList) < Config.NumProcs
\x7b threads = len(Config.ServerList) \x7d`. -/
def executeThreads (numProcs : Int) (numServers : Nat) : Int :=
  if (numServers : Int) < numProcs then (numServers : Int) else numProcs

/-! ## Authentication-method resolution (main.go lines 116-198) -/

/-- Oracles for the filesystem and key-parsing calls made by
`sshPrivateKey`: `ioutil.ReadFile` and `ssh.ParsePrivateKey`, each returning
`none` on failure, plus the `HOME` environment variable. -/
structure KeyEnv where
  readFile : String → Option String
  parseKey : String → Option String
  home : String

/-- Result of `sshPrivateKey` (main.go lines 171-189): `log.Fatal` aborts
the process, a Go `nil` return is `nilMethod`, and a successful
`ssh.PublicKeys(signer)` carries the signer. -/
inductive KeyResult where
  | fatal
  | nilMethod
  | publicKeys (signer : String)
deriving DecidableEq

/-- `sshPrivateKey` (main.go lines 171-189): `failOnErr := true`; an empty
`identityFile` switches to `$HOME/.ssh/id_rsa` with `failOnErr = false`.
A read failure is fatal only when `failOnErr`; otherwise `nil` is returned.
A parse failure is `log.Fatal` unconditionally. -/
def sshPrivateKey (env : KeyEnv) (identityFile : String) : KeyResult :=
  let failOnErr := identityFile ≠ ""
  let file := if identityFile = "" then env.home ++ "/.ssh/id_rsa" else identityFile
  match env.readFile file with
  | none => if failOnErr then KeyResult.fatal else KeyResult.nilMethod
  | some key =>
    match env.parseKey key with
    | none => KeyResult.fatal
    | some signer => KeyResult.publicKeys signer

/-- A concrete `ssh.AuthMethod` value as built by main.go: the agent's
`ssh.PublicKeysCallback(sshagent.Signers)`, a parsed key's
`ssh.PublicKeys(signer)`, or `ssh.PasswordCallback(...)`. -/
inductive AuthMethod where
  | agentSigners
  | publicKeys (signer : String)
  | passwordCb
deriving DecidableEq

/-- `sshAgent` (main.go lines 191-198): dial the local agent socket; on
failure return `nil` (embedded as `none`), otherwise wrap the agent as a
signing provider. -/
def sshAgent (agentReachable : Bool) : Option AuthMethod :=
  if agentReachable then some AuthMethod.agentSigners else none

/-- `sshPassword` (main.go lines 164-166): always returns a password
callback method, never `nil`. -/
def sshPassword : Option AuthMethod :=
  some AuthMethod.passwordCb

/-- The `ssh.AuthMethod` slice entry produced by `sshPrivateKey` when it
does not abort: `nil` stays in the slice as a `none` placeholder. -/
def keyMethodEntry : KeyResult → Option AuthMethod
  | KeyResult.fatal => none
  | KeyResult.nilMethod => none
  | KeyResult.publicKeys s => some (AuthMethod.publicKeys s)

/-- `sshAuthMethods := []ssh.AuthMethod\x7bsshAgent(), sshPrivateKey(...),
sshPassword()\x7d` (main.go line 117). The outer `Option` is `none` when
`sshPrivateKey` called `log.Fatal`; otherwise the slice always has three
entries, with Go `nil` interface values embedded as `none` placeholders. -/
def sshAuthMethods (agentReachable : Bool) (env : KeyEnv)
    (identityFile : String) : Option (List (Option AuthMethod)) :=
  match sshPrivateKey env identityFile with
  | KeyResult.fatal => none
  | r => some [sshAgent agentReachable, keyMethodEntry r, sshPassword]

/-- Observable events of an authentication attempt: a terminal password
prompt (`echoDisabled` records that `terminal.ReadPassword` was used, which
does not echo) and the submission of a password string to the server. -/
inductive AuthEvent where
  | prompt (echoDisabled : Bool)
  | submitPassword (pw : String)
deriving DecidableEq

/-- Go's `strings.TrimSpace`: drop all leading and trailing whitespace
characters. Embedded structurally over the character list so that it
evaluates. -/
def goTrimSpace (s : String) : String :=
  String.mk
    (((s.toList.dropWhile Char.isWhitespace).reverse.dropWhile
      Char.isWhitespace).reverse)

/-- `passwordCallback` (main.go lines 153-163): when invoked it prints a
prompt, reads the line with `terminal.ReadPassword` (echo disabled), and
returns `strings.TrimSpace` of the entered text. `raw` is the line the
user types; the result pairs the emitted events with the returned
password. -/
def passwordCallback (raw : String) : List AuthEvent × String :=
  ([AuthEvent.prompt true], goTrimSpace raw)

/-- Modelled from the spec: invoking one method of the ordered list during
negotiation (the `x/crypto/ssh` client side is not part of this repository).
Offering `agentSigners` or `publicKeys` emits no terminal events; offering
the password method invokes `passwordCallback` and submits its result.
`accept` abstracts whether the server accepts the offered method. -/
def invokeMethod (accept : AuthMethod → Bool) (raw : String) :
    AuthMethod → List AuthEvent × Bool
  | AuthMethod.agentSigners => ([], accept AuthMethod.agentSigners)
  | AuthMethod.publicKeys s => ([], accept (AuthMethod.publicKeys s))
  | AuthMethod.passwordCb =>
    let r := passwordCallback raw
    (r.1 ++ [AuthEvent.submitPassword r.2], accept AuthMethod.passwordCb)

/-- Modelled from the spec: "the underlying negotiation protocol tries them
in order and stops at the first success". Returns the trace of terminal
events and whether some method succeeded. -/
def negotiate (accept : AuthMethod → Bool) (raw : String) :
    List AuthMethod → List AuthEvent × Bool
  | [] => ([], false)
  | m :: rest =>
    let r := invokeMethod accept raw m
    if r.2 then (r.1, true)
    else
      let r2 := negotiate accept raw rest
      (r.1 ++ r2.1, r2.2)

/-- Number of terminal prompts in an event trace. -/
def promptCount (evs : List AuthEvent) : Nat :=
  evs.countP (fun e => match e with | AuthEvent.prompt _ => true | _ => false)

/-! ## Dispatcher (worker pool, queues, collector) -/

/-- `ExecutorCom` (dispatcher source lines 155-158), keeping the channel
capacities: `JobChannel: make(chan string, 100)` and
`ResponseChannel: make(chan ExecutorResponse, 100)`. -/
structure ExecutorCom where
  jobChannelCap : Nat
  responseChannelCap : Nat
deriving DecidableEq

/-- The `ExecutorCom` literal built in `load`: both capacities are the
constant 100, independent of the host list. -/
def loadExecutorCom : ExecutorCom :=
  { jobChannelCap := 100, responseChannelCap := 100 }

/-- `ClientResponse`: per-host result record \x7bhost identity, captured
output, execution error (nilable)\x7d. Modelled from the spec: the struct
declaration lives in the `gosshclient` package, outside these sources. -/
structure ClientResponse where
  host : String
  output : String
  error : Option String
deriving DecidableEq

/-- Modelled from the spec: a worker that dequeues host `h` runs
Connector → Workload and builds exactly one `ClientResponse` whose host
identity is `h`; `run` abstracts the per-host connection/execution outcome
(captured output and nilable error). -/
def workerResponse (run : String → String × Option String)
    (h : String) : ClientResponse :=
  { host := h, output := (run h).1, error := (run h).2 }

/-- The collector loop of `execute` (dispatcher source lines 88-93):
`for i := 0; i < len(Config.ServerList); i++` receive one response from the
response queue. Receiving `n` times from the arrival stream is taking its
first `n` elements; termination is purely by this count. -/
def collect (numServers : Nat) (arrivals : List ClientResponse) :
    List ClientResponse :=
  arrivals.take numServers

/-! ## Control flow of `main` (main.go lines 23-142) -/

/-- Inputs and oracles that determine `main`'s control flow: parsed flag
values, positional arguments, and the outcomes of the external calls
(`knownhosts.New`, the key file reads, `ExecuteScript`/`ExecuteCommands`). -/
structure MainInput where
  helpFlag : Bool
  versionFlag : Bool
  args : List String
  scriptFlag : String
  noStrictHostCheck : Bool
  knownHostsOk : Bool
  agentReachable : Bool
  keyEnv : KeyEnv
  identityFileFlag : String
  execError : Option String

/-- How the process ends: its exit code, and whether execution was
dispatched to the client (`gclient.ExecuteScript`/`ExecuteCommands` was
invoked, i.e. hosts could have been contacted). `log.Fatal` exits with
code 1; normal completion exits 0. -/
inductive MainOutcome where
  | exit (code : Nat) (dispatched : Bool)
deriving DecidableEq

/-- Registered default of the `NoStrictHostCheck` flag (main.go line 68):
`false`, i.e. host keys are checked against known_hosts by default. -/
def defaultNoStrictHostCheck : Bool := false

/-- The decision structure of `main` (main.go lines 74-141), in source
order: help, version, positional-argument check, host-list parse,
known-hosts loading (fatal on failure unless checking is disabled), eager
auth-method construction (fatal if `sshPrivateKey` aborts), then script /
command dispatch, else exit 3; a dispatch error is `log.Fatal`. -/
def mainRun (inp : MainInput) : MainOutcome :=
  if inp.helpFlag then MainOutcome.exit 0 false
  else if inp.versionFlag then MainOutcome.exit 0 false
  else if inp.args.length < 1 then MainOutcome.exit 2 false
  else
    match (NewServerList (inp.args.headD "")).2 with
    | some _ => MainOutcome.exit 3 false
    | none =>
      if ¬ inp.noStrictHostCheck ∧ ¬ inp.knownHostsOk then
        MainOutcome.exit 1 false
      else
        match sshAuthMethods inp.agentReachable inp.keyEnv inp.identityFileFlag with
        | none => MainOutcome.exit 1 false
        | some _ =>
          if inp.scriptFlag ≠ "" then
            match inp.execError with
            | some _ => MainOutcome.exit 1 true
            | none => MainOutcome.exit 0 true
          else if 0 < inp.args.tail.length then
            match inp.execError with
            | some _ => MainOutcome.exit 1 true
            | none => MainOutcome.exit 0 true
          else MainOutcome.exit 3 false

/-! ## Concrete environments and inputs used in witnesses -/

/-- A filesystem in which the conventional `$HOME/.ssh/id_rsa` exists but
its content is not a parsable private key. -/
def defaultKeyEnvBad : KeyEnv :=
  { readFile := fun f => if f = "/home/u/.ssh/id_rsa" then some "not-a-key" else none
    parseKey := fun _ => none
    home := "/home/u" }

/-- A filesystem with no readable key files at all. -/
def emptyKeyEnv : KeyEnv :=
  { readFile := fun _ => none
    parseKey := fun _ => none
    home := "/home/u" }

/-- A filesystem in which `$HOME/.ssh/id_rsa` exists and parses to the
signer `"SIG"`. -/
def goodKeyEnv : KeyEnv :=
  { readFile := fun f => if f = "/home/u/.ssh/id_rsa" then some "KEY" else none
    parseKey := fun k => if k = "KEY" then some "SIG" else none
    home := "/home/u" }

/-- A host-list argument naming 101 hosts (`"h,h,...,h"`). -/
def manyHostsArg : String :=
  String.mk (List.intercalate [','] (List.replicate 101 ['h']))

/-- An arrival order at the response queue for the two-host witness run:
the second host's response arrives first. -/
def arrivalsEx : List ClientResponse :=
  [{ host := "h2", output := "h2", error := none },
   { host := "h1", output := "h1", error := none }]

/-- A fully-formed run input: two hosts, one command token, strict host
checking with a readable known_hosts file, default identity key usable,
execution succeeding. -/
def baseInput : MainInput :=
  { helpFlag := false
    versionFlag := false
    args := ["h1,h2", "uptime"]
    scriptFlag := ""
    noStrictHostCheck := false
    knownHostsOk := true
    agentReachable := true
    keyEnv := goodKeyEnv
    identityFileFlag := ""
    execError := none }

/-! ## Claim C1 — host-list parsing -/

/-- C1 (counterexample): the claim states that parsing trims surrounding
whitespace from each entry (`HostList(" a , b ") = ["a","b"]`) and rejects
the empty input with a parse error. The code does neither:
`NewServerList " a , b "` keeps the whitespace, and `NewServerList ""`
returns a nil error. -/
theorem c1_counterexample :
    (NewServerList " a , b ").1 ≠ ["a", "b"]
    ∧ (NewServerList " a , b ").1 = [" a ", " b "]
    ∧ (NewServerList "").2 = none := by
  decide

/-- C1 (amended): parsing splits the input on commas, preserves the order
and content of the entries (joining the fields with `','` restores the
input character-for-character, so nothing is trimmed, merged or reordered),
and never returns a parse error; the empty input yields the one-element
list `[""]`, not an error. -/
theorem c1_amended :
    (∀ arg : String, (NewServerList arg).2 = none)
    ∧ (∀ cs : List Char, List.intercalate [','] (cs.splitOn ',') = cs)
    ∧ NewServerList "a,b,c" = (["a", "b", "c"], none)
    ∧ NewServerList " a , b " = ([" a ", " b "], none)
    ∧ NewServerList "" = ([""], none) := by
  refine ⟨fun _ => rfl, fun cs => List.intercalate_splitOn cs ',', ?_, ?_, ?_⟩
  · decide
  · decide
  · decide

/-! ## Claim C2 — effective worker count -/

/-- C2: for a host list of size `N` and configured worker setting `P`, the
worker count handed to the pool (`Routines(...)` in `main`, re-clamped at
the top of `execute`) is `N` when `P = -1` and `min P N` otherwise. -/
theorem c2_effective_workers (P : Int) (N : Nat) :
    routines P N = (if P = -1 then (N : Int) else min P N)
    ∧ executeThreads (routines P N) N = (if P = -1 then (N : Int) else min P N) := by
  unfold routines executeThreads
  constructor
  · split_ifs <;> omega
  · split_ifs <;> omega

/-! ## Claim C8 — queue capacities -/

/-- C8 (counterexample): the job and response queue capacities are the
constant 100, so a run on a 101-host list has capacities strictly below
the host count, contradicting "capacities are at least the number of hosts
for every run". -/
theorem c8_counterexample :
    loadExecutorCom.jobChannelCap < (NewServerList manyHostsArg).1.length
    ∧ loadExecutorCom.responseChannelCap < (NewServerList manyHostsArg).1.length := by
  decide

/-- C8 (amended): both queue capacities are the constant 100, independent
of the host list; they are at least the host count exactly for runs with
at most 100 hosts. -/
theorem c8_amended (servers : ServerList) (h : servers.length ≤ 100) :
    loadExecutorCom = { jobChannelCap := 100, responseChannelCap := 100 }
    ∧ servers.length ≤ loadExecutorCom.jobChannelCap
    ∧ servers.length ≤ loadExecutorCom.responseChannelCap := by
  refine ⟨rfl, ?_, ?_⟩ <;> simpa [loadExecutorCom] using h

/-- Witness for C8 (amended) at the two-host list. -/
theorem c8_amended_witness :
    (["h1", "h2"] : ServerList).length ≤ 100
    ∧ (loadExecutorCom = { jobChannelCap := 100, responseChannelCap := 100 }
       ∧ (["h1", "h2"] : ServerList).length ≤ loadExecutorCom.jobChannelCap
       ∧ (["h1", "h2"] : ServerList).length ≤ loadExecutorCom.responseChannelCap) :=
  ⟨by decide, c8_amended ["h1", "h2"] (by decide)⟩

/-! ## Claim C3 — identity-file error handling -/

/-- C3 (code bug): the claim (and the comment above `sshPrivateKey`) says
failures on the *default* identity file are non-fatal — the method is
omitted. The code honours this for a read failure (`nilMethod`), but a
default key file that reads fine and fails to parse hits the unconditional
`log.Fatal("Could not parse private key")`, aborting the whole run. An
explicitly specified file is fatal on both failures, as claimed. -/
theorem c3_default_key_parse_fatal :
    sshPrivateKey defaultKeyEnvBad "" = KeyResult.fatal
    ∧ sshPrivateKey emptyKeyEnv "" = KeyResult.nilMethod
    ∧ sshPrivateKey emptyKeyEnv "/explicit/key" = KeyResult.fatal
    ∧ sshPrivateKey defaultKeyEnvBad "/home/u/.ssh/id_rsa" = KeyResult.fatal
    ∧ KeyResult.fatal ≠ KeyResult.nilMethod := by
  decide

/-! ## Claim C5 — agent method omission -/

/-- C5 (code bug): the claim says an unreachable agent socket leaves no
placeholder entry in the method list. In the code `sshAgent()` returns a
Go `nil`, and that `nil` is placed as the first element of the 3-element
`sshAuthMethods` slice handed to every connection; the slice never shrinks.
When the socket is reachable the agent provider is first, as claimed. -/
theorem c5_agent_nil_placeholder :
    sshAuthMethods false goodKeyEnv "" =
      some [none, some (AuthMethod.publicKeys "SIG"), some AuthMethod.passwordCb]
    ∧ sshAuthMethods true goodKeyEnv "" =
      some [some AuthMethod.agentSigners, some (AuthMethod.publicKeys "SIG"),
        some AuthMethod.passwordCb]
    ∧ ((sshAuthMethods false goodKeyEnv "").getD []).length = 3
    ∧ ((sshAuthMethods false goodKeyEnv "").getD [some AuthMethod.passwordCb]).headD
        (some AuthMethod.passwordCb) = none := by
  decide

/-! ## Claim C4 — lazy interactive password prompting -/

/-- C4: over the ordered method list built by `main` (agent signers, public
key, password callback), negotiation emits no terminal events at all when
an earlier method is accepted — the password provider is only data until
invoked — and when both earlier methods are rejected it emits exactly one
prompt, with echo disabled, submitting `strings.TrimSpace` of the entered
line; in every case at most one prompt occurs. -/
theorem c4_password_lazy (accept : AuthMethod → Bool) (raw s : String)
    (hms : ms = [AuthMethod.agentSigners, AuthMethod.publicKeys s,
      AuthMethod.passwordCb]) :
    (accept AuthMethod.agentSigners = true →
      (negotiate accept raw ms).1 = [])
    ∧ (accept (AuthMethod.publicKeys s) = true →
      (negotiate accept raw ms).1 = [])
    ∧ (accept AuthMethod.agentSigners = false →
       accept (AuthMethod.publicKeys s) = false →
      (negotiate accept raw ms).1 =
        [AuthEvent.prompt true, AuthEvent.submitPassword (goTrimSpace raw)])
    ∧ promptCount (negotiate accept raw ms).1 ≤ 1 := by
  subst hms
  rcases h1 : accept AuthMethod.agentSigners
  · rcases h2 : accept (AuthMethod.publicKeys s)
    · rcases h3 : accept AuthMethod.passwordCb <;>
        simp [negotiate, invokeMethod, passwordCallback, promptCount, h1, h2, h3]
    · simp [negotiate, invokeMethod, passwordCallback, promptCount, h1, h2]
  · simp [negotiate, invokeMethod, passwordCallback, promptCount, h1]

/-- Witness for C4: with a server rejecting everything, the single prompt
(echo disabled) and the trimmed submission appear; with a server accepting
the agent, no event at all is emitted. -/
theorem c4_password_lazy_witness :
    (negotiate (fun _ => false) " pw " [AuthMethod.agentSigners,
      AuthMethod.publicKeys "SIG", AuthMethod.passwordCb]).1 =
      [AuthEvent.prompt true, AuthEvent.submitPassword "pw"]
    ∧ (negotiate (fun _ => true) " pw " [AuthMethod.agentSigners,
      AuthMethod.publicKeys "SIG", AuthMethod.passwordCb]).1 = [] := by
  constructor
  · have h := (c4_password_lazy (fun _ => false) " pw " "SIG" rfl).2.2.1 rfl rfl
    rw [h]
    decide
  · exact (c4_password_lazy (fun _ => true) " pw " "SIG" rfl).1 rfl

/-! ## Claim C9 — the parse-error branch is unreachable -/

/-- C9: `NewServerList` returns a nil error for every input, so the
`usage(3)` branch guarded by `err != nil` in `main` is unreachable, and the
empty input produces the one-element list `[""]` rather than an error. -/
theorem c9_parse_never_fails :
    (∀ arg : String, parseFailBranch arg = false)
    ∧ NewServerList "" = ([""], none) := by
  exact ⟨fun _ => rfl, by decide⟩

/-! ## Claim C6 — one response per host, count-driven collector -/

/-- C6: in a run where no worker terminates abnormally, every dispatched
host yields exactly one `ClientResponse`, so the response stream is a
permutation of one response per host; the collector of `execute` receives
exactly `len(ServerList)` times and therefore collects all of them: the
number of collected responses equals `N` and their host identities are a
permutation of the original host list (set equality, order not
required). -/
theorem c6_collector (hosts : List String)
    (run : String → String × Option String) (arrivals : List ClientResponse)
    (hperm : arrivals.Perm (hosts.map (workerResponse run))) :
    (collect hosts.length arrivals).length = hosts.length
    ∧ ((collect hosts.length arrivals).map ClientResponse.host).Perm hosts := by
  have hlen : arrivals.length = hosts.length := by
    simpa using hperm.length_eq
  have htake : collect hosts.length arrivals = arrivals := by
    rw [collect, ← hlen, List.take_length]
  refine ⟨by rw [htake, hlen], ?_⟩
  rw [htake]
  have hmap := hperm.map ClientResponse.host
  rw [List.map_map] at hmap
  have hid : (ClientResponse.host ∘ workerResponse run) = id := rfl
  rw [hid, List.map_id] at hmap
  exact hmap

/-- Witness for C6: a two-host run whose responses arrive in reverse
order. -/
theorem c6_collector_witness :
    (collect (["h1", "h2"] : List String).length arrivalsEx).length =
      (["h1", "h2"] : List String).length
    ∧ ((collect (["h1", "h2"] : List String).length arrivalsEx).map
        ClientResponse.host).Perm ["h1", "h2"] :=
  c6_collector ["h1", "h2"] (fun h => (h, none)) arrivalsEx (by decide)

/-! ## Claim C7 — process exit codes -/

/-- C7: `main` exits 0 on help display, on version display, and on a
successful run; exits 2 when the host-list positional argument is missing;
exits 3 when neither a script nor command tokens are supplied (after the
earlier checks pass); and terminates with the non-zero code 1 (`log.Fatal`)
on fatal configuration errors (unreadable known_hosts under strict
checking, fatal identity-file errors) before dispatch. The remaining
claimed case — exit 3 when host-list parsing fails — is the branch
`parseFailBranch`, which `mainRun` maps to `exit 3` but which is
unreachable because `NewServerList` never errors. -/
theorem c7_exit_codes (inp : MainInput) :
    (inp.helpFlag = true → mainRun inp = MainOutcome.exit 0 false)
    ∧ (inp.helpFlag = false → inp.versionFlag = true →
        mainRun inp = MainOutcome.exit 0 false)
    ∧ (inp.helpFlag = false → inp.versionFlag = false → inp.args = [] →
        mainRun inp = MainOutcome.exit 2 false)
    ∧ (inp.helpFlag = false → inp.versionFlag = false → inp.args ≠ [] →
        inp.noStrictHostCheck = false → inp.knownHostsOk = false →
        mainRun inp = MainOutcome.exit 1 false)
    ∧ (inp.helpFlag = false → inp.versionFlag = false → inp.args ≠ [] →
        inp.knownHostsOk = true →
        sshPrivateKey inp.keyEnv inp.identityFileFlag = KeyResult.fatal →
        mainRun inp = MainOutcome.exit 1 false)
    ∧ (inp.helpFlag = false → inp.versionFlag = false → inp.args ≠ [] →
        inp.knownHostsOk = true →
        sshPrivateKey inp.keyEnv inp.identityFileFlag ≠ KeyResult.fatal →
        inp.scriptFlag = "" → inp.args.tail = [] →
        mainRun inp = MainOutcome.exit 3 false)
    ∧ (inp.helpFlag = false → inp.versionFlag = false → inp.args ≠ [] →
        inp.knownHostsOk = true →
        sshPrivateKey inp.keyEnv inp.identityFileFlag ≠ KeyResult.fatal →
        inp.scriptFlag ≠ "" ∨ inp.args.tail ≠ [] →
        inp.execError = none →
        mainRun inp = MainOutcome.exit 0 true) := by
  refine ⟨?_, ?_, ?_, ?_, ?_, ?_, ?_⟩
  · intro h1
    simp [mainRun, h1]
  · intro h1 h2
    simp [mainRun, h1, h2]
  · intro h1 h2 h3
    simp [mainRun, h1, h2, h3]
  · intro h1 h2 h3 h4 h5
    have hlen : ¬ inp.args.length < 1 := by
      simpa [Nat.lt_one_iff, List.length_eq_zero] using h3
    simp [mainRun, h1, h2, hlen, NewServerList, h4, h5]
  · intro h1 h2 h3 h4 h5
    have hlen : ¬ inp.args.length < 1 := by
      simpa [Nat.lt_one_iff, List.length_eq_zero] using h3
    simp [mainRun, h1, h2, hlen, NewServerList, h4, sshAuthMethods, h5]
  · intro h1 h2 h3 h4 h5 h6 h7
    have hlen : ¬ inp.args.length < 1 := by
      simpa [Nat.lt_one_iff, List.length_eq_zero] using h3
    cases hk : sshPrivateKey inp.keyEnv inp.identityFileFlag with
    | fatal => exact absurd hk h5
    | nilMethod =>
      simp [mainRun, h1, h2, hlen, NewServerList, h4, sshAuthMethods, hk, h6, h7]
    | publicKeys s =>
      simp [mainRun, h1, h2, hlen, NewServerList, h4, sshAuthMethods, hk, h6, h7]
  · intro h1 h2 h3 h4 h5 hd he
    have hlen : ¬ inp.args.length < 1 := by
      simpa [Nat.lt_one_iff, List.length_eq_zero] using h3
    by_cases hs : inp.scriptFlag = ""
    · have ht : inp.args.tail ≠ [] := by
        rcases hd with hd | hd
        · exact absurd hs hd
        · exact hd
      have htl : 0 < inp.args.tail.length := List.length_pos.mpr ht
      have h2len : 1 < inp.args.length := by
        have := List.length_tail inp.args
        omega
      cases hk : sshPrivateKey inp.keyEnv inp.identityFileFlag with
      | fatal => exact absurd hk h5
      | nilMethod =>
        simp [mainRun, h1, h2, hlen, NewServerList, h4, sshAuthMethods, hk, hs,
          htl, h2len, he]
      | publicKeys s =>
        simp [mainRun, h1, h2, hlen, NewServerList, h4, sshAuthMethods, hk, hs,
          htl, h2len, he]
    · cases hk : sshPrivateKey inp.keyEnv inp.identityFileFlag with
      | fatal => exact absurd hk h5
      | nilMethod =>
        simp [mainRun, h1, h2, hlen, NewServerList, h4, sshAuthMethods, hk, hs, he]
      | publicKeys s =>
        simp [mainRun, h1, h2, hlen, NewServerList, h4, sshAuthMethods, hk, hs, he]

/-- Witness for C7: each exit-code case at a concrete run input. -/
theorem c7_exit_codes_witness :
    mainRun { baseInput with helpFlag := true } = MainOutcome.exit 0 false
    ∧ mainRun { baseInput with versionFlag := true } = MainOutcome.exit 0 false
    ∧ mainRun { baseInput with args := [] } = MainOutcome.exit 2 false
    ∧ mainRun { baseInput with knownHostsOk := false } = MainOutcome.exit 1 false
    ∧ mainRun { baseInput with keyEnv := defaultKeyEnvBad } = MainOutcome.exit 1 false
    ∧ mainRun { baseInput with args := ["h1,h2"] } = MainOutcome.exit 3 false
    ∧ mainRun baseInput = MainOutcome.exit 0 true :=
  ⟨(c7_exit_codes _).1 rfl,
   (c7_exit_codes _).2.1 rfl rfl,
   (c7_exit_codes _).2.2.1 rfl rfl rfl,
   (c7_exit_codes _).2.2.2.1 rfl rfl (by decide) rfl rfl,
   (c7_exit_codes _).2.2.2.2.1 rfl rfl (by decide) rfl (by decide),
   (c7_exit_codes _).2.2.2.2.2.1 rfl rfl (by decide) rfl (by decide) rfl rfl,
   (c7_exit_codes _).2.2.2.2.2.2 rfl rfl (by decide) rfl (by decide)
     (Or.inr (by decide)) rfl⟩

/-! ## Claim C10 — strict host-key checking failure is pre-flight fatal -/

/-- C10: strict host-key checking is the registered default
(`NoStrictHostCheck` defaults to `false`), and under it a known-hosts file
that cannot be read or parsed (`knownhosts.New` fails) makes `main` call
`log.Fatal`: the process exits with the non-zero code 1 without dispatch
ever being reached, i.e. before any host is contacted. -/
theorem c10_knownhosts_fatal (inp : MainInput)
    (h1 : inp.helpFlag = false) (h2 : inp.versionFlag = false)
    (h3 : inp.args ≠ [])
    (h4 : inp.noStrictHostCheck = defaultNoStrictHostCheck)
    (h5 : inp.knownHostsOk = false) :
    defaultNoStrictHostCheck = false
    ∧ mainRun inp = MainOutcome.exit 1 false := by
  have hlen : ¬ inp.args.length < 1 := by
    simpa [Nat.lt_one_iff, List.length_eq_zero] using h3
  rw [defaultNoStrictHostCheck] at h4
  exact ⟨rfl, by simp [mainRun, h1, h2, hlen, NewServerList, h4, h5]⟩

/-- Witness for C10 at a concrete run input. -/
theorem c10_knownhosts_fatal_witness :
    defaultNoStrictHostCheck = false
    ∧ mainRun { baseInput with knownHostsOk := false } = MainOutcome.exit 1 false :=
  c10_knownhosts_fatal { baseInput with knownHostsOk := false }
    rfl rfl (by decide) rfl rfl

end Valor
